import Mathlib

/-!
Shallow embedding of the tenant-isolation and authorization core of a
multi-tenant NestJS backend, together with proofs about it.

Sources embedded here (the TypeScript files of the repository):
* `src/tenants/tenants.interceptor.ts` — `TenantInterceptor.intercept`
* `src/tenants/subscribers/tenant-aware.subscriber.ts` — `TenantAwareSubscriber`
* `src/tenants/subscribers/tenants.subscriber.ts` — `TenantSubscriber`
* `src/common/factories/casl-ability.factory.ts` — `Actions`, `Subjects`,
  `CaslAbilityFactory.createForUser`
* `src/common/guards/policies.guard.ts` — `PoliciesGuard.canActivate`
* `src/users/policies/read-user.policy.ts` — `ReadUserPolicy.handle`
* `src/organizations/organizations.service.ts` — `OrganizationsService.findOne`
* `src/auth/jwt.strategy.ts` — the write of the tenant into the request
  context store (`cls.set`)
* `src/config/tenant.config.ts` — the list of tenant-owned entity types

JavaScript runtime behaviour is embedded explicitly: a value that may be
`undefined` becomes an `Option`, and a call that can raise a runtime
`TypeError` (dereferencing `undefined`) returns `Except String`.
-/

/-- Tenant entity (`src/entities/tenant.entity.ts`): numeric primary key
and the unique `domain` column.  The collections it owns play no role in
the verified operations and are omitted. -/
structure Tenant where
  id : Nat
  domain : String
  deriving Repr, DecidableEq

/-- Permission entity (`src/entities/permission.entity.ts`): unique `name`,
string `action` verb and string `subject` tag. -/
structure Permission where
  name : String
  action : String
  subject : String
  deriving Repr, DecidableEq

/-- Role entity (`src/entities/role.entity.ts`): the permission collection
owned by the role (the unique role name is irrelevant here). -/
structure Role where
  permissions : List Permission
  deriving Repr, DecidableEq

/-- User entity (`src/entities/user.entity.ts`): numeric id, the role and
tenant relations.  At runtime either relation may be absent or not loaded
(`undefined`), hence the `Option`s. -/
structure User where
  id : Nat
  role : Option Role
  tenant : Option Tenant
  deriving Repr, DecidableEq

/-- The slice of the HTTP request object the verified code reads:
`request.user` (attached by the authentication guard, absent when no
principal was resolved) and `request.params.id` (the raw path segment). -/
structure Request where
  user : Option User
  paramsId : String
  deriving Repr, DecidableEq

/-- String members of the `Actions` enum in
`src/common/factories/casl-ability.factory.ts`. -/
def Actions.Manage : String := "manage"

/-- Member `Actions.Create = 'create'` of the `Actions` enum. -/
def Actions.Create : String := "create"

/-- Member `Actions.Read = 'read'` of the `Actions` enum. -/
def Actions.Read : String := "read"

/-- Member `Actions.ReadAny = 'readAny'` of the `Actions` enum. -/
def Actions.ReadAny : String := "readAny"

/-- Member `Actions.ReadOwn = 'readOwn'` of the `Actions` enum. -/
def Actions.ReadOwn : String := "readOwn"

/-- Member `Actions.Update = 'update'` of the `Actions` enum. -/
def Actions.Update : String := "update"

/-- Member `Actions.Delete = 'delete'` of the `Actions` enum. -/
def Actions.Delete : String := "delete"

/-- Member `Subjects.User = 'User'` of the `Subjects` enum. -/
def Subjects.User : String := "User"

/-- Member `Subjects.Organization = 'Organization'` of the `Subjects` enum. -/
def Subjects.Organization : String := "Organization"

/-- One CASL rule as built by `CaslAbilityFactory.createForUser`: the
`action`/`subject` pair taken from a permission row. -/
structure RawRule where
  action : String
  subject : String
  deriving Repr, DecidableEq

/-- Rule list built from a loaded role by `createForUser`:
`user.role.permissions.map((permission) => (\x7b action: permission.action,
subject: permission.subject \x7d))`. -/
def rulesOfRole (role : Role) : List RawRule :=
  role.permissions.map (fun p => { action := p.action, subject := p.subject })

/-- Runtime `TypeError` raised when `user.role` is dereferenced on an
absent user. -/
def typeErrorNoUser : String := "TypeError: reading role of undefined"

/-- Runtime `TypeError` raised when `role.permissions` is dereferenced on
an absent or unloaded role. -/
def typeErrorNoRole : String := "TypeError: reading permissions of undefined"

/-- `CaslAbilityFactory.createForUser` (casl-ability.factory.ts): reads
`user.role.permissions` unconditionally and maps each permission to one
rule.  Dereferencing an absent user or an unloaded role raises a runtime
`TypeError`, embedded as `Except.error`. -/
def createForUser (user : Option User) : Except String (List RawRule) :=
  match user with
  | none => Except.error typeErrorNoUser
  | some u =>
    match u.role with
    | none => Except.error typeErrorNoRole
    | some role => Except.ok (rulesOfRole role)

/-- Modelled from the spec: the rule matching of the external
`@casl/ability` library (`createMongoAbility` / `ability.can`), which is
not part of the repository.  Per the spec, a grant matches a target if its
subject equals the target subject and its action equals the target action
or is the wildcard `manage` marker; matching over a rule list is the
disjunction over its rules (additive, never revoking). -/
def canRule (rule : RawRule) (action subject : String) : Bool :=
  rule.subject == subject && (rule.action == action || rule.action == Actions.Manage)

/-- Modelled from the spec: `ability.can(action, subject)` over the rule
list — true exactly when some rule grants the target pair. -/
def can (ability : List RawRule) (action subject : String) : Bool :=
  ability.any (fun rule => canRule rule action subject)

/-- A policy handler as the guard invokes it (`execPolicyHandler` applies a
function handler and a class handler identically): a boolean function of
the ability, the principal and the request. -/
abbrev PolicyHandler := List RawRule → User → Request → Bool

/-- `PoliciesGuard.canActivate` (policies.guard.ts): reads the declared
handler list from route metadata (`|| []` makes it empty when none is
declared), extracts `request.user`, builds the ability through
`createForUser` — dereferencing `user.role.permissions` before the handler
list is consulted — and returns the conjunction
`policyHandlers.every((handler) => exec(handler, ability, user, request))`. -/
def canActivate (policyHandlers : List PolicyHandler) (request : Request) :
    Except String Bool :=
  match request.user with
  | none => Except.error typeErrorNoUser
  | some user =>
    match createForUser (some user) with
    | Except.error e => Except.error e
    | Except.ok ability =>
      Except.ok (policyHandlers.all (fun handler => handler ability user request))

/-- Longest leading run of decimal digits of a path segment. -/
def digitsPrefix (s : String) : List Char :=
  s.data.takeWhile Char.isDigit

/-- Numeric value of one decimal digit character. -/
def digitVal (c : Char) : Nat := c.toNat - 48

/-- Value of a list of decimal digit characters, most significant first. -/
def digitsVal (ds : List Char) : Nat :=
  ds.foldl (fun acc c => acc * 10 + digitVal c) 0

/-- Modelled from the spec: the JavaScript builtin `parseInt` (not part of
the repository) applied to a URL path segment with no radix argument — it
parses the longest leading run of decimal digits and yields `NaN`
(embedded as `none`) when that run is empty.  The builtin cases that
cannot occur in a route id (leading whitespace, an explicit sign, a `0x`
radix prefix) are outside this model. -/
def parseIntJS (s : String) : Option Nat :=
  let ds := digitsPrefix s
  if ds.isEmpty then none else some (digitsVal ds)

/-- Embedding of the strict equality `user.id === parseInt(s)`: a `NaN`
result compares unequal to every number. -/
def idMatches (uid : Nat) (s : String) : Bool :=
  match parseIntJS s with
  | none => false
  | some k => uid == k

/-- `ReadUserPolicy.handle` (read-user.policy.ts):
`ability.can(Actions.ReadAny, Subjects.User) ||
(ability.can(Actions.ReadOwn, Subjects.User) && user.id ===
parseInt(request.params.id))`. -/
def ReadUserPolicy.handle (ability : List RawRule) (user : User)
    (request : Request) : Bool :=
  can ability Actions.ReadAny Subjects.User
    || (can ability Actions.ReadOwn Subjects.User
        && idMatches user.id request.paramsId)

/-- Tags for the entity classes listed in `tenant.config.ts`. -/
inductive EntityKind where
  | user
  | organization
  deriving Repr, DecidableEq

/-- `tenant.config.ts`: `entities: [User, Organization]` — the entity
types declared tenant-owned, consumed by both the interceptor and the
tenant-aware subscriber. -/
def tenantConfigEntities : List EntityKind :=
  [EntityKind.user, EntityKind.organization]

/-- `TenantAwareSubscriber.getSubscribedEntities` (tenant-aware.subscriber.ts):
`this.tenantConfigService.entities.filter((entity) => entity !== User)`. -/
def TenantAwareSubscriber.getSubscribedEntities : List EntityKind :=
  tenantConfigEntities.filter (fun e => e != EntityKind.user)

/-- Organization entity as it exists in memory before first persistence
(`src/entities/organization.entity.ts`): the tenant relation (absent until
assigned), `name`, optional `description`. -/
structure OrgEntity where
  tenant : Option Tenant
  name : String
  description : Option String
  deriving Repr, DecidableEq

/-- `TenantAwareSubscriber.beforeCreate` (tenant-aware.subscriber.ts):
`args.entity.tenant = this.cls.get('tenant')` — assigns whatever the
request context store holds (possibly nothing) to the entity's tenant
field, overwriting any caller-supplied value.  The source contains no
throw; the `Except` codomain records that the hook returns normally on
every input, including an empty store. -/
def TenantAwareSubscriber.beforeCreate (cls : Option Tenant)
    (entity : OrgEntity) : Except String OrgEntity :=
  Except.ok { entity with tenant := cls }

/-- `JwtStrategy.validate` side effect on the request context store
(jwt.strategy.ts): `if (user) this.cls.set('tenant', user.tenant)` — on a
resolved principal the store slot becomes the principal's tenant,
otherwise it keeps its previous value. -/
def JwtStrategy.clsAfterValidate (user : Option User) (cls : Option Tenant) :
    Option Tenant :=
  match user with
  | some u => u.tenant
  | none => cls

/-- `TenantSubscriber.beforeCreate` (tenants.subscriber.ts):
`args.entity.domain = args.entity.domain + '.' +
this.tenantConfigService.domain` — rewrites the raw domain label in
place. -/
def TenantSubscriber.beforeCreate (rootDomain : String) (tenant : Tenant) :
    Tenant :=
  { tenant with domain := tenant.domain ++ "." ++ rootDomain }

/-- Outcome of `TenantInterceptor.intercept` (tenants.interceptor.ts). -/
inductive InterceptorOutcome where
  /-- `next.handle()` reached with no filter installed (public or
  skip-tenant route). -/
  | proceedUnfiltered
  /-- Filter installed and parameterised with this tenant id, then
  `next.handle()`. -/
  | proceedFiltered (tenantId : Nat)
  /-- `InternalServerErrorException('User not found')`. -/
  | errorUserNotFound
  /-- `InternalServerErrorException('Tenant not found')`. -/
  | errorTenantNotFound
  deriving Repr, DecidableEq

/-- `TenantInterceptor.intercept` (tenants.interceptor.ts): public routes
and skip-tenant routes pass through unfiltered; otherwise an absent
`request.user` raises `InternalServerErrorException('User not found')`, an
absent `user.tenant` raises `InternalServerErrorException('Tenant not
found')`, and otherwise the tenant filter is installed with
`setFilterParams('tenant', \x7b tenantId: tenant.id \x7d)` before the
request proceeds. -/
def TenantInterceptor.intercept (isPublic shouldSkipTenant : Bool)
    (user : Option User) : InterceptorOutcome :=
  if isPublic then InterceptorOutcome.proceedUnfiltered
  else if shouldSkipTenant then InterceptorOutcome.proceedUnfiltered
  else
    match user with
    | none => InterceptorOutcome.errorUserNotFound
    | some u =>
      match u.tenant with
      | none => InterceptorOutcome.errorTenantNotFound
      | some tenant => InterceptorOutcome.proceedFiltered tenant.id

/-- A persisted organization row as the query layer sees it: primary key
and the stamped tenant id (non-null once persisted). -/
structure OrgRow where
  id : Nat
  tenant : Nat
  name : String
  deriving Repr, DecidableEq

/-- The standing predicate installed by the interceptor:
`(args) => (\x7b tenant: args.tenantId \x7d)` parameterised with the
current tenant id — a row is visible exactly when its tenant column equals
that id. -/
def tenantFilterPred (tenantId : Nat) (row : OrgRow) : Bool :=
  row.tenant == tenantId

/-- `OrganizationsService.findOne` under the installed tenant filter:
`repo.findOne(id)` with the filter transparently conjoined — the first row
whose id matches among the rows the filter lets through, `null` when there
is none. -/
def findOneScoped (db : List OrgRow) (tenantId : Nat) (id : Nat) :
    Option OrgRow :=
  (db.filter (tenantFilterPred tenantId)).find? (fun r => r.id == id)

/-- Externally observable outcome of the organization `findOne` route. -/
inductive RouteOutcome where
  /-- The policy guard returned false (mapped to a 403 by the boundary). -/
  | forbidden
  /-- The guard passed and the tenant-filtered query returned this
  (possibly absent) record. -/
  | result (record : Option OrgRow)
  /-- An exception escaped (guard `TypeError` and the like). -/
  | failure (message : String)
  deriving Repr, DecidableEq

/-- The organization `findOne` request path after the tenant filter is
installed: the policy guard — whose handlers receive only the ability, the
principal and the request, never the queried record — and then the
tenant-scoped query. -/
def orgFindOneRoute (policyHandlers : List PolicyHandler) (request : Request)
    (db : List OrgRow) (tenantId : Nat) (oid : Nat) : RouteOutcome :=
  match canActivate policyHandlers request with
  | Except.error e => RouteOutcome.failure e
  | Except.ok false => RouteOutcome.forbidden
  | Except.ok true => RouteOutcome.result (findOneScoped db tenantId oid)

example : findOneScoped [⟨7, 2, "x"⟩] 1 7 = none := by decide
example : findOneScoped [⟨7, 1, "x"⟩] 1 7 = some ⟨7, 1, "x"⟩ := by decide
example : can (rulesOfRole ⟨[⟨"p","manage","User"⟩]⟩) "delete" "User" = true := by decide
example : idMatches 5 "5abc" = true := by decide
example : idMatches 5 "abc" = false := by decide
example : parseIntJS "" = none := by decide

/-- Decimal digit character for a value below ten. -/
def decChar (d : Nat) : Char :=
  if d = 0 then '0' else if d = 1 then '1' else if d = 2 then '2'
  else if d = 3 then '3' else if d = 4 then '4' else if d = 5 then '5'
  else if d = 6 then '6' else if d = 7 then '7' else if d = 8 then '8'
  else '9'

/-- Decimal digit characters of a natural number, most significant first. -/
def decDigits (n : Nat) : List Char :=
  if _h : n < 10 then [decChar n]
  else decDigits (n / 10) ++ [decChar (n % 10)]
decreasing_by exact Nat.div_lt_self (by omega) (by omega)

/-- Canonical decimal path segment for a numeric record id — the numeral a
client writes in `GET /users/:id`. -/
def natToDecimal (n : Nat) : String := ⟨decDigits n⟩

theorem decChar_isDigit (d : Nat) (h : d < 10) : (decChar d).isDigit = true := by
  interval_cases d <;> decide

theorem digitVal_decChar (d : Nat) (h : d < 10) : digitVal (decChar d) = d := by
  interval_cases d <;> decide

theorem decDigits_all_digit (n : Nat) : ∀ c ∈ decDigits n, c.isDigit = true := by
  induction n using Nat.strong_induction_on with
  | _ n ih =>
    rw [decDigits]
    split
    · intro c hc
      rw [List.mem_singleton] at hc
      subst hc
      exact decChar_isDigit n (by omega)
    · intro c hc
      rw [List.mem_append] at hc
      rcases hc with hc | hc
      · exact ih (n / 10) (Nat.div_lt_self (by omega) (by omega)) c hc
      · rw [List.mem_singleton] at hc
        subst hc
        exact decChar_isDigit (n % 10) (Nat.mod_lt n (by omega))

theorem decDigits_ne_nil (n : Nat) : decDigits n ≠ [] := by
  rw [decDigits]
  split
  · exact List.cons_ne_nil _ _
  · exact List.append_ne_nil_of_right_ne_nil _ (List.cons_ne_nil _ _)

theorem digitsVal_decDigits (n : Nat) : digitsVal (decDigits n) = n := by
  induction n using Nat.strong_induction_on with
  | _ n ih =>
    rw [decDigits]
    split
    · simp [digitsVal, digitVal_decChar n (by omega)]
    · rw [digitsVal, List.foldl_append]
      have hrec := ih (n / 10) (Nat.div_lt_self (by omega) (by omega))
      rw [digitsVal] at hrec
      rw [hrec]
      simp [digitVal_decChar (n % 10) (Nat.mod_lt n (by omega))]
      omega

theorem takeWhile_all_eq {p : Char → Bool} :
    ∀ (l : List Char), (∀ c ∈ l, p c = true) → l.takeWhile p = l := by
  intro l
  induction l with
  | nil => intro _; rfl
  | cons c cs ihc =>
    intro h
    rw [List.takeWhile_cons, h c (List.mem_cons_self c cs)]
    simp [ihc (fun x hx => h x (List.mem_cons_of_mem c hx))]

theorem digitsPrefix_natToDecimal (n : Nat) :
    digitsPrefix (natToDecimal n) = decDigits n := by
  rw [digitsPrefix, natToDecimal]
  exact takeWhile_all_eq _ (decDigits_all_digit n)

theorem parseIntJS_natToDecimal (n : Nat) : parseIntJS (natToDecimal n) = some n := by
  rw [parseIntJS, digitsPrefix_natToDecimal]
  simp [List.isEmpty_iff, decDigits_ne_nil n, digitsVal_decDigits n]

/-- C4: for every Tenant creation, the domain normalization hook rewrites
the raw domain label to the label followed by a literal dot followed by
the configured root domain, replacing the field in place; raw label
`acme` under root domain `example.com` yields exactly
`acme.example.com`. -/
theorem tenant_domain_normalized :
    (∀ (rootDomain : String) (t : Tenant),
      (TenantSubscriber.beforeCreate rootDomain t).domain
        = t.domain ++ "." ++ rootDomain)
    ∧ (TenantSubscriber.beforeCreate "example.com"
        { id := 1, domain := "acme" }).domain = "acme.example.com" :=
  ⟨fun _ _ => rfl, rfl⟩

/-- C8: on a non-public, non-skip-tenant request, the interceptor raises
the `User not found` server error when no user is attached, raises the
`Tenant not found` server error when the attached principal has no tenant,
and otherwise installs the tenant filter parameterised with the
principal's tenant id and proceeds. -/
theorem interceptor_error_paths (u : User) (t : Tenant) :
    TenantInterceptor.intercept false false none
      = InterceptorOutcome.errorUserNotFound
    ∧ (u.tenant = none →
        TenantInterceptor.intercept false false (some u)
          = InterceptorOutcome.errorTenantNotFound)
    ∧ (u.tenant = some t →
        TenantInterceptor.intercept false false (some u)
          = InterceptorOutcome.proceedFiltered t.id) := by
  refine ⟨rfl, fun h => ?_, fun h => ?_⟩ <;>
    simp [TenantInterceptor.intercept, h]

/-- Closed instance of `interceptor_error_paths`: a tenant-less principal
hits the `Tenant not found` error, while a principal of tenant 3 gets the
filter installed with tenant id 3. -/
theorem interceptor_error_paths_witness :
    TenantInterceptor.intercept false false (some ⟨1, none, none⟩)
      = InterceptorOutcome.errorTenantNotFound
    ∧ TenantInterceptor.intercept false false
        (some ⟨1, none, some ⟨3, "acme.example.com"⟩⟩)
      = InterceptorOutcome.proceedFiltered 3 :=
  ⟨(interceptor_error_paths ⟨1, none, none⟩ ⟨3, "acme.example.com"⟩).2.1 rfl,
   (interceptor_error_paths ⟨1, none, some ⟨3, "acme.example.com"⟩⟩
      ⟨3, "acme.example.com"⟩).2.2 rfl⟩

/-- C2: the tenant-aware subscriber subscribes to every configured
tenant-owned entity type except User (leaving exactly Organization), and
in a scoped request — where the context store holds the requester's
tenant, written there by `JwtStrategy.validate` — its before-create hook
stamps the entity with that tenant, regardless of any tenant value the
caller supplied on the entity. -/
theorem tenant_stamping_scoped (u : User) (t : Tenant) (cls : Option Tenant)
    (e : OrgEntity) (h : u.tenant = some t) :
    TenantAwareSubscriber.getSubscribedEntities = [EntityKind.organization]
    ∧ TenantAwareSubscriber.beforeCreate
        (JwtStrategy.clsAfterValidate (some u) cls) e
      = Except.ok { e with tenant := some t } := by
  refine ⟨rfl, ?_⟩
  simp [TenantAwareSubscriber.beforeCreate, JwtStrategy.clsAfterValidate, h]

/-- Closed instance of `tenant_stamping_scoped`: a caller-supplied foreign
tenant (id 9) on the new entity is overwritten with the requester's
tenant (id 4). -/
theorem tenant_stamping_scoped_witness :
    TenantAwareSubscriber.beforeCreate
        (JwtStrategy.clsAfterValidate
          (some ⟨1, none, some ⟨4, "acme.example.com"⟩⟩) none)
        ⟨some ⟨9, "mallory.example.com"⟩, "marketing", none⟩
      = Except.ok ⟨some ⟨4, "acme.example.com"⟩, "marketing", none⟩ :=
  (tenant_stamping_scoped ⟨1, none, some ⟨4, "acme.example.com"⟩⟩
    ⟨4, "acme.example.com"⟩ none
    ⟨some ⟨9, "mallory.example.com"⟩, "marketing", none⟩ rfl).2

/-- C3, counterexample: invoked with no tenant in the request context
store, the stamping hook does not fail with a `MissingTenantContext`
error — it returns normally and hands the entity on with an absent
tenant (here even overwriting a caller-supplied tenant with absence). -/
theorem stamping_no_missing_tenant_error :
    TenantAwareSubscriber.beforeCreate none
        ⟨some ⟨9, "mallory.example.com"⟩, "acme org", none⟩
      = Except.ok ⟨none, "acme org", none⟩ := rfl

/-- C3, amended: if the tenant-stamping hook is invoked on a tenant-owned
entity while no tenant value is present in the Request Context Store, it
raises no error at all: it assigns the absent value to the entity's tenant
field (overwriting any caller-supplied tenant) and returns normally, so
the entity proceeds toward persistence with no tenant; any failure can
only surface later (e.g. the database's non-null constraint), not as a
`MissingTenantContext` error from the hook. -/
theorem stamping_empty_store_returns_absent (e : OrgEntity) :
    TenantAwareSubscriber.beforeCreate none e
      = Except.ok { e with tenant := none } := rfl

/-- C5: the capability set the Ability Factory builds from a loaded role
grants a target (action, subject) pair exactly when some permission of the
role has that subject and either that action or the wildcard `manage`
action; each permission contributes exactly one rule, and rule lists
combine by union (disjunction), never revoking a grant. -/
theorem ability_factory_grants (u : User) (role : Role) (a s : String)
    (h : u.role = some role) :
    createForUser (some u) = Except.ok (rulesOfRole role)
    ∧ (can (rulesOfRole role) a s = true
        ↔ ∃ p ∈ role.permissions,
            p.subject = s ∧ (p.action = a ∨ p.action = Actions.Manage))
    ∧ (rulesOfRole role).length = role.permissions.length
    ∧ (∀ extra : List RawRule,
        can (rulesOfRole role ++ extra) a s
          = (can (rulesOfRole role) a s || can extra a s)) := by
  refine ⟨by simp [createForUser, h], ?_, by simp [rulesOfRole], fun extra => ?_⟩
  · simp [can, rulesOfRole, canRule, List.any_map, List.any_eq_true,
      Function.comp]
  · simp [can, List.any_append]

/-- Closed instance of `ability_factory_grants`: a role holding only the
`manage`/`Organization` permission yields a one-rule ability that grants
the specific action `delete` on `Organization` through the wildcard. -/
theorem ability_factory_grants_witness :
    createForUser
        (some ⟨1, some ⟨[⟨"manage:organization", "manage", "Organization"⟩]⟩, none⟩)
      = Except.ok (rulesOfRole ⟨[⟨"manage:organization", "manage", "Organization"⟩]⟩)
    ∧ can (rulesOfRole ⟨[⟨"manage:organization", "manage", "Organization"⟩]⟩)
        "delete" "Organization" = true := by
  have h := ability_factory_grants
    ⟨1, some ⟨[⟨"manage:organization", "manage", "Organization"⟩]⟩, none⟩
    ⟨[⟨"manage:organization", "manage", "Organization"⟩]⟩
    "delete" "Organization" rfl
  exact ⟨h.1, h.2.1.mpr
    ⟨⟨"manage:organization", "manage", "Organization"⟩, by decide, by decide⟩⟩

/-- C6: for a request carrying a loaded principal, the policy guard
returns the conjunction of the declared policy handlers applied to the
capability set, the principal and the request — it permits exactly when
every declared policy returns true, and an empty policy list permits
vacuously. -/
theorem policy_evaluator_conjunction (handlers : List PolicyHandler)
    (req : Request) (u : User) (role : Role)
    (hu : req.user = some u) (hr : u.role = some role) :
    canActivate handlers req
      = Except.ok (handlers.all (fun h => h (rulesOfRole role) u req))
    ∧ (handlers.all (fun h => h (rulesOfRole role) u req) = true
        ↔ ∀ h ∈ handlers, h (rulesOfRole role) u req = true)
    ∧ canActivate [] req = Except.ok true := by
  refine ⟨?_, List.all_eq_true, ?_⟩ <;>
    simp [canActivate, createForUser, hu, hr]

/-- Closed instance of `policy_evaluator_conjunction`: with a granted
read permission a one-policy list permits, and the empty policy list
permits for the same principal. -/
theorem policy_evaluator_conjunction_witness :
    canActivate [fun ability _ _ => can ability "read" "User"]
        ⟨some ⟨1, some ⟨[⟨"read:user", "read", "User"⟩]⟩, none⟩, "1"⟩
      = Except.ok true
    ∧ canActivate [] ⟨some ⟨1, some ⟨[⟨"read:user", "read", "User"⟩]⟩, none⟩, "1"⟩
      = Except.ok true := by
  have h := policy_evaluator_conjunction
    [fun ability _ _ => can ability "read" "User"]
    ⟨some ⟨1, some ⟨[⟨"read:user", "read", "User"⟩]⟩, none⟩, "1"⟩
    ⟨1, some ⟨[⟨"read:user", "read", "User"⟩]⟩, none⟩
    ⟨[⟨"read:user", "read", "User"⟩]⟩ rfl rfl
  exact ⟨h.1.trans rfl, h.2.2⟩

/-- C9 (implicit): the policy guard dereferences the principal's role and
permissions before consulting the declared policy list, so a request with
no attached user — or with a user whose role is not loaded — makes the
guard raise a runtime `TypeError` instead of returning a permit/deny
boolean, even when the declared policy list is empty. -/
theorem policy_guard_no_user_throws (handlers : List PolicyHandler)
    (req : Request)
    (h : req.user = none ∨ ∃ u, req.user = some u ∧ u.role = none) :
    (∃ e, canActivate handlers req = Except.error e)
    ∧ ∀ b : Bool, canActivate handlers req ≠ Except.ok b := by
  have key : ∃ e, canActivate handlers req = Except.error e := by
    rcases h with h | ⟨u, hu, hr⟩
    · exact ⟨typeErrorNoUser, by simp [canActivate, h]⟩
    · exact ⟨typeErrorNoRole, by simp [canActivate, createForUser, hu, hr]⟩
  obtain ⟨e, he⟩ := key
  refine ⟨⟨e, he⟩, fun b hb => ?_⟩
  rw [he] at hb
  exact Except.noConfusion hb

/-- Closed instance of `policy_guard_no_user_throws`: with no user on the
request and an empty policy list, the guard still ends in an error, never
in a boolean. -/
theorem policy_guard_no_user_throws_witness :
    (∃ e, canActivate [] ⟨none, "1"⟩ = Except.error e)
    ∧ ∀ b : Bool, canActivate [] ⟨none, "1"⟩ ≠ Except.ok b :=
  policy_guard_no_user_throws [] ⟨none, "1"⟩ (Or.inl rfl)

/-- C7: a principal whose ability grants (readOwn, User) but not
(readAny, User) passes the read-user policy exactly when the numeric id in
the request path is the principal's own id — permitted on the own id,
denied on every other id. -/
theorem read_user_policy_own_only (ability : List RawRule) (u : User)
    (requester : Option User) (m : Nat)
    (hOwn : can ability Actions.ReadOwn Subjects.User = true)
    (hAny : can ability Actions.ReadAny Subjects.User = false) :
    ReadUserPolicy.handle ability u ⟨requester, natToDecimal m⟩ = true
      ↔ u.id = m := by
  simp [ReadUserPolicy.handle, hOwn, hAny, idMatches, parseIntJS_natToDecimal]

/-- Closed instance of `read_user_policy_own_only`: with only the
(readOwn, User) grant, user 5 passes for path id 5 and is denied for
path id 7. -/
theorem read_user_policy_own_only_witness :
    ReadUserPolicy.handle [⟨"readOwn", "User"⟩] ⟨5, none, none⟩
        ⟨none, natToDecimal 5⟩ = true
    ∧ ReadUserPolicy.handle [⟨"readOwn", "User"⟩] ⟨5, none, none⟩
        ⟨none, natToDecimal 7⟩ = false := by
  have h5 := read_user_policy_own_only [⟨"readOwn", "User"⟩] ⟨5, none, none⟩
    none 5 (by decide) (by decide)
  have h7 := read_user_policy_own_only [⟨"readOwn", "User"⟩] ⟨5, none, none⟩
    none 7 (by decide) (by decide)
  refine ⟨h5.mpr rfl, ?_⟩
  cases hb : ReadUserPolicy.handle [⟨"readOwn", "User"⟩] ⟨5, none, none⟩
      ⟨none, natToDecimal 7⟩ with
  | false => rfl
  | true => exact absurd (h7.mp hb) (by decide)

/-- C10 (implicit): the read-user own-record check compares the
principal's id with `parseInt` of the path id, not with the exact path
string — so the policy outcome depends on the path only through
`parseIntJS`; any path whose leading decimal digits evaluate to the
principal's id passes the own check, and a path with no leading digits
parses to `NaN` and never passes it. -/
theorem read_user_policy_uses_parseInt (ability : List RawRule) (u : User)
    (requester : Option User) (s : String)
    (hOwn : can ability Actions.ReadOwn Subjects.User = true)
    (hAny : can ability Actions.ReadAny Subjects.User = false) :
    ReadUserPolicy.handle ability u ⟨requester, s⟩ = idMatches u.id s
    ∧ (digitsPrefix s ≠ [] →
        (ReadUserPolicy.handle ability u ⟨requester, s⟩ = true
          ↔ digitsVal (digitsPrefix s) = u.id))
    ∧ (digitsPrefix s = [] →
        parseIntJS s = none
        ∧ ReadUserPolicy.handle ability u ⟨requester, s⟩ = false) := by
  refine ⟨by simp [ReadUserPolicy.handle, hOwn, hAny], fun hne => ?_, fun he => ?_⟩
  · have hp : parseIntJS s = some (digitsVal (digitsPrefix s)) := by
      simp [parseIntJS, List.isEmpty_iff, hne]
    simp [ReadUserPolicy.handle, hOwn, hAny, idMatches, hp]
    exact eq_comm
  · have hp : parseIntJS s = none := by simp [parseIntJS, List.isEmpty_iff, he]
    exact ⟨hp, by simp [ReadUserPolicy.handle, hOwn, hAny, idMatches, hp]⟩

/-- Closed instance of `read_user_policy_uses_parseInt`: user 5 with only
the (readOwn, User) grant passes for the non-numeric path id `5abc`, while
the digit-free path id `abc` parses to `NaN` and is denied. -/
theorem read_user_policy_uses_parseInt_witness :
    ReadUserPolicy.handle [⟨"readOwn", "User"⟩] ⟨5, none, none⟩
        ⟨none, "5abc"⟩ = true
    ∧ parseIntJS "abc" = none
    ∧ ReadUserPolicy.handle [⟨"readOwn", "User"⟩] ⟨5, none, none⟩
        ⟨none, "abc"⟩ = false := by
  have h1 := read_user_policy_uses_parseInt [⟨"readOwn", "User"⟩]
    ⟨5, none, none⟩ none "5abc" (by decide) (by decide)
  have h2 := read_user_policy_uses_parseInt [⟨"readOwn", "User"⟩]
    ⟨5, none, none⟩ none "abc" (by decide) (by decide)
  exact ⟨(h1.2.1 (by decide)).mpr (by decide),
    (h2.2.2 (by decide)).1, (h2.2.2 (by decide)).2⟩

/-- C1: on a scoped request (tenant filter installed for tenant `tid`),
fetching an organization id that exists only under a different tenant is
observably identical to fetching an id that exists nowhere — the
tenant-filtered `findOne` returns the absence value in both cases, and the
whole route (policy guard included, whose handlers never receive the
queried record) produces exactly the same outcome, never a distinct
forbidden signal for the foreign record. -/
theorem cross_tenant_fetch_absence (handlers : List PolicyHandler)
    (req : Request) (dbF dbA : List OrgRow) (tid idF idA : Nat)
    (_hscoped : TenantInterceptor.intercept false false req.user
      = InterceptorOutcome.proceedFiltered tid)
    (_hforeign : ∃ r ∈ dbF, r.id = idF ∧ r.tenant ≠ tid)
    (honly : ∀ r ∈ dbF, r.id = idF → r.tenant ≠ tid)
    (habsent : ∀ r ∈ dbA, r.id ≠ idA) :
    findOneScoped dbF tid idF = none
    ∧ orgFindOneRoute handlers req dbF tid idF
      = orgFindOneRoute handlers req dbA tid idA := by
  have hF : findOneScoped dbF tid idF = none := by
    rw [findOneScoped, List.find?_eq_none]
    intro r hr hpid
    rw [List.mem_filter] at hr
    have htenant : r.tenant = tid := by
      simpa [tenantFilterPred] using hr.2
    exact honly r hr.1 (by simpa using hpid) htenant
  have hA : findOneScoped dbA tid idA = none := by
    rw [findOneScoped, List.find?_eq_none]
    intro r hr hpid
    rw [List.mem_filter] at hr
    exact habsent r hr.1 (by simpa using hpid)
  refine ⟨hF, ?_⟩
  unfold orgFindOneRoute
  rw [hF, hA]

/-- Closed instance of `cross_tenant_fetch_absence`: organization 7 exists
but belongs to tenant 2; for the scoped request of a tenant-1 principal
the route outcome on a database containing it equals the outcome on an
empty database, and the filtered query returns the absence value. -/
theorem cross_tenant_fetch_absence_witness :
    findOneScoped [⟨7, 2, "tenant2 org"⟩] 1 7 = none
    ∧ orgFindOneRoute []
        ⟨some ⟨1, some ⟨[]⟩, some ⟨1, "acme.example.com"⟩⟩, "7"⟩
        [⟨7, 2, "tenant2 org"⟩] 1 7
      = orgFindOneRoute []
        ⟨some ⟨1, some ⟨[]⟩, some ⟨1, "acme.example.com"⟩⟩, "7"⟩
        [] 1 7 :=
  cross_tenant_fetch_absence []
    ⟨some ⟨1, some ⟨[]⟩, some ⟨1, "acme.example.com"⟩⟩, "7"⟩
    [⟨7, 2, "tenant2 org"⟩] [] 1 7 7
    (by decide) (by decide) (by decide) (by decide)
